import Mathlib

/-!
Shallow embedding of `src/client.py` (the resilient HTTP call engine and the
experiment runner) and verification of its specification claims.

Modelling conventions:
* Durations are exact rationals (`ℚ`); Python's float literals `0.3` and `35.0`
  become `3/10` and `35`.
* The network is an environment `env : Nat → Attempt` giving, for each loop
  index `attempt`, what the single HTTP GET of that iteration does: either a
  response (status code, `response.elapsed.total_seconds()`, the wall-clock
  `time.time() - start_time`, and what `response.json()` would yield) or a
  raised exception (`requests.RequestException` from `requests.get`).
* Python exceptions are modelled with `Except PyExn`: a value that the
  `except (requests.RequestException, ValueError)` clause does not catch would
  propagate as `Except.error`; the theorems show this never happens.
* The loop `for attempt in range(max_retries)` is modelled by structural
  recursion on the remaining iteration count (`fuel`), alongside the current
  index `i`: at entry of an iteration, `max_retries = i + fuel + 1`, so
  Python's `attempt < max_retries - 1` is `fuel ≠ 0` and
  `attempt == max_retries - 1` is `fuel = 0`.
* The third component of the engine's return value instruments the number of
  loop iterations (HTTP attempts) actually performed; the Python code returns
  only the `(result, stats)` pair.
-/

namespace RClient

/-- Enumeration `TimeoutStrategy` of `client.py`: `AGGRESSIVE` (300 ms timeout)
or `PATIENT` (35 s timeout). -/
inductive TimeoutStrategy where
  | AGGRESSIVE
  | PATIENT
  deriving DecidableEq

/-- Timeout selection of `make_resilient_call`:
`timeout = 0.3 if timeout_strategy == TimeoutStrategy.AGGRESSIVE else 35.0`. -/
def timeoutOf : TimeoutStrategy → ℚ
  | .AGGRESSIVE => 3 / 10
  | .PATIENT => 35

/-- Value of the local variable `scenario` in `make_resilient_call`
(a Python string; `"failure"` is its initial value, kept when no branch of the
if/elif chain fires). -/
inductive Scena where
  | success
  | intermittent_error
  | slow
  | error
  | failure
  deriving DecidableEq

/-- The if/elif chain of `make_resilient_call` classifying a received response,
in the source's literal order: status 200, then status 503, then
`response.elapsed.total_seconds() > timeout`, then status 500. -/
def classify (timeout : ℚ) (status : Nat) (respElapsed : ℚ) : Scena :=
  if status = 200 then .success
  else if status = 503 then .intermittent_error
  else if respElapsed > timeout then .slow
  else if status = 500 then .error
  else .failure

/-- Outcome of `response.json()`: either the decoded body or a raised
`ValueError` (e.g. `json.JSONDecodeError`) with its message. -/
inductive JsonBody where
  | decoded (v : String)
  | decodeFailure (msg : String)
  deriving DecidableEq

/-- What one loop iteration's HTTP GET does, as determined by the environment:
the request either completes with a response or raises. -/
inductive Attempt where
  | response (status : Nat) (respElapsed : ℚ) (elapsedTime : ℚ) (body : JsonBody)
  | exception (e : String)
  deriving DecidableEq

/-- Exceptions that the code of `make_resilient_call` can raise:
`requests.RequestException` (from `requests.get`) and `ValueError`
(from `response.json()`). -/
inductive PyExn where
  | requestException (msg : String)
  | valueError (msg : String)
  deriving DecidableEq

/-- Predicate of the clause `except (requests.RequestException, ValueError)`:
which exception classes the handler catches. -/
def caughtByExcept : PyExn → Bool
  | .requestException _ => true
  | .valueError _ => true

/-- Python `str(e)` for the modelled exceptions. -/
def exnText : PyExn → String
  | .requestException m => m
  | .valueError m => m

/-- Dataclass `CallStats` of `client.py` (fields in source order). Both
construction sites pass `timeout_strategy=`, and `__post_init__` replaces the
`None` default of `response_times` with `[]`. -/
structure CallStats where
  total_calls : Nat
  total_errors : Nat
  total_success : Nat
  total_time : ℚ
  response_times : List ℚ
  timeout_strategy : TimeoutStrategy
  deriving DecidableEq

/-- The freshly constructed `CallStats(timeout_strategy=timeout_strategy)`. -/
def CallStats.init (s : TimeoutStrategy) : CallStats :=
  ⟨0, 0, 0, 0, [], s⟩

/-- Statements `stats.total_calls += 1`, `stats.response_times.append(...)`,
`stats.total_time += elapsed_time` executed after a response is received. -/
def CallStats.recordResponse (st : CallStats) (elapsed : ℚ) : CallStats :=
  { st with
    total_calls := st.total_calls + 1
    response_times := st.response_times ++ [elapsed]
    total_time := st.total_time + elapsed }

/-- Statement `stats.total_errors += 1`. -/
def CallStats.addError (st : CallStats) : CallStats :=
  { st with total_errors := st.total_errors + 1 }

/-- Statement `stats.total_success += 1`. -/
def CallStats.addSuccess (st : CallStats) : CallStats :=
  { st with total_success := st.total_success + 1 }

/-- The dictionaries returned by `make_resilient_call`: `response.json()` on
the success path, `{"error": "Internal Server Error"}` on the 500 path,
`{"error": str(e)}` from the exception handler on the last attempt, and
`{"error": "Max retries exceeded"}` after the loop. -/
inductive CallResult where
  | ok (body : String)
  | internalServerError
  | transportError (msg : String)
  | maxRetriesExceeded
  deriving DecidableEq

/-- The retry loop `for attempt in range(max_retries)` of
`make_resilient_call`. Arguments: remaining iterations `fuel`, current index
`i`, accumulated `stats`; returns the result dictionary, the final stats, and
the number of iterations performed. `fuel = 0` at entry of an iteration means
this is the last attempt (`attempt == max_retries - 1`). -/
def callLoop (timeout : ℚ) (env : Nat → Attempt) :
    Nat → Nat → CallStats → Except PyExn (CallResult × CallStats × Nat)
  | 0, i, stats => .ok (.maxRetriesExceeded, stats, i)
  | fuel + 1, i, stats =>
    match env i with
    | .exception m =>
      if caughtByExcept (.requestException m) then
        let stats1 := stats.addError
        if fuel = 0 then
          .ok (.transportError (exnText (.requestException m)), stats1, i + 1)
        else
          callLoop timeout env fuel (i + 1) stats1
      else
        .error (.requestException m)
    | .response status respElapsed elapsedTime body =>
      let stats1 := stats.recordResponse elapsedTime
      match classify timeout status respElapsed with
      | .intermittent_error | .slow =>
        callLoop timeout env fuel (i + 1) stats1.addError
      | .error =>
        .ok (.internalServerError, stats1.addError, i + 1)
      | .success | .failure =>
        let stats2 := stats1.addSuccess
        match body with
        | .decoded v => .ok (.ok v, stats2, i + 1)
        | .decodeFailure msg =>
          if caughtByExcept (.valueError msg) then
            let stats3 := stats2.addError
            if fuel = 0 then
              .ok (.transportError (exnText (.valueError msg)), stats3, i + 1)
            else
              callLoop timeout env fuel (i + 1) stats3
          else
            .error (.valueError msg)

/-- Function `make_resilient_call(url, max_retries, timeout_strategy)` of
`client.py`. The URL carries no information in the model (the network is the
environment `env`). -/
def make_resilient_call (max_retries : Nat) (timeout_strategy : TimeoutStrategy)
    (env : Nat → Attempt) : Except PyExn (CallResult × CallStats × Nat) :=
  callLoop (timeoutOf timeout_strategy) env max_retries 0
    (CallStats.init timeout_strategy)

/-- Accumulation statements of `run_test`: counters and `total_time` are
summed, `response_times` is extended. -/
def foldStats (acc cs : CallStats) : CallStats :=
  { acc with
    total_calls := acc.total_calls + cs.total_calls
    total_errors := acc.total_errors + cs.total_errors
    total_success := acc.total_success + cs.total_success
    total_time := acc.total_time + cs.total_time
    response_times := acc.response_times ++ cs.response_times }

/-- The loop `for i in range(num_calls)` of `run_test`; each logical call `i`
invokes `make_resilient_call` with the default `max_retries = 3` under the
per-call environment `env i`. -/
def runLoop (timeout_strategy : TimeoutStrategy) (env : Nat → Nat → Attempt) :
    Nat → Nat → CallStats → Except PyExn CallStats
  | 0, _, acc => .ok acc
  | k + 1, i, acc =>
    match make_resilient_call 3 timeout_strategy (env i) with
    | .error e => .error e
    | .ok (_, call_stats, _) =>
      runLoop timeout_strategy env k (i + 1) (foldStats acc call_stats)

/-- Function `run_test(num_calls, timeout_strategy)` of `client.py`. -/
def run_test (num_calls : Nat) (timeout_strategy : TimeoutStrategy)
    (env : Nat → Nat → Attempt) : Except PyExn CallStats :=
  runLoop timeout_strategy env num_calls 0 (CallStats.init timeout_strategy)

/-- Property `average_time` of `CallStats`:
`mean(self.response_times) if self.response_times else 0.0`. -/
def CallStats.average_time (s : CallStats) : ℚ :=
  if s.response_times = [] then 0
  else s.response_times.sum / s.response_times.length

/-- Sample variance `sum((x - mean)^2) / (n - 1)` of Python's
`statistics.stdev` before the square root. -/
def sampleVariance (xs : List ℚ) : ℚ :=
  let μ : ℚ := xs.sum / xs.length
  (xs.map fun x => (x - μ) ^ 2).sum / ((xs.length : ℚ) - 1)

/-- Property `stddev_time` of `CallStats`:
`stdev(self.response_times) if len(self.response_times) > 1 else 0.0`.
The numeric library's square root is abstracted as the parameter `sqrt`. -/
def CallStats.stddev_time (sqrt : ℚ → ℚ) (s : CallStats) : ℚ :=
  if 1 < s.response_times.length then sqrt (sampleVariance s.response_times)
  else 0

/-- Insertion into a sorted list, for the ascending sort that
`np.percentile` performs internally. -/
def insertSorted (x : ℚ) : List ℚ → List ℚ
  | [] => [x]
  | y :: ys => if x ≤ y then x :: y :: ys else y :: insertSorted x ys

/-- Ascending insertion sort of a duration list. -/
def sortTimes : List ℚ → List ℚ
  | [] => []
  | x :: xs => insertSorted x (sortTimes xs)

/-- Linear-interpolation percentile of `np.percentile(xs, p)`: with the data
sorted ascending and virtual index `h = (n - 1) * p / 100`, interpolate
between the neighbouring order statistics. -/
def percentile (xs : List ℚ) (p : ℚ) : ℚ :=
  let sorted := sortTimes xs
  let n := sorted.length
  let h : ℚ := ((n : ℚ) - 1) * p / 100
  let lo : Nat := (⌊h⌋).toNat
  let lov := sorted.getD lo 0
  let hiv := sorted.getD (min (lo + 1) (n - 1)) 0
  lov + (h - (lo : ℚ)) * (hiv - lov)

/-- Property `percentile_95` of `CallStats`:
`np.percentile(self.response_times, 95) if self.response_times else 0.0`. -/
def CallStats.percentile_95 (s : CallStats) : ℚ :=
  if s.response_times = [] then 0 else percentile s.response_times 95

/-- An attempt whose HTTP GET returns a status-500 response received within
the active timeout (so that the `slow` branch, checked before the 500 branch,
does not fire). -/
def ServerErrorInTime (timeout : ℚ) : Attempt → Prop
  | .response status respElapsed _ _ => status = 500 ∧ respElapsed ≤ timeout
  | .exception _ => False

/-- An attempt whose HTTP GET returns a status-503 response. -/
def Is503 : Attempt → Prop
  | .response status _ _ _ => status = 503
  | .exception _ => False

/-- Invariant tying the `CallStats` counters together: `response_times` has
one entry per counted call, `total_time` is the sum of `response_times`, and
every counted call was booked as a success or an error (possibly both, and
attempts ending in a caught exception add errors without adding calls). -/
def StatsInv (st : CallStats) : Prop :=
  st.response_times.length = st.total_calls ∧
  st.total_time = st.response_times.sum ∧
  st.total_calls ≤ st.total_success + st.total_errors

theorem statsInv_init (s : TimeoutStrategy) : StatsInv (CallStats.init s) := by
  simp [StatsInv, CallStats.init]

theorem StatsInv.addError {st : CallStats} (h : StatsInv st) : StatsInv st.addError := by
  obtain ⟨h1, h2, h3⟩ := h
  exact ⟨h1, h2, by simp [CallStats.addError]; omega⟩

theorem StatsInv.record_addError {st : CallStats} (e : ℚ) (h : StatsInv st) :
    StatsInv ((st.recordResponse e).addError) := by
  obtain ⟨h1, h2, h3⟩ := h
  refine ⟨?_, ?_, ?_⟩
  · simp [CallStats.recordResponse, CallStats.addError, h1]
  · simp [CallStats.recordResponse, CallStats.addError, h2]
  · simp [CallStats.recordResponse, CallStats.addError]; omega

theorem StatsInv.record_addSuccess {st : CallStats} (e : ℚ) (h : StatsInv st) :
    StatsInv ((st.recordResponse e).addSuccess) := by
  obtain ⟨h1, h2, h3⟩ := h
  refine ⟨?_, ?_, ?_⟩
  · simp [CallStats.recordResponse, CallStats.addSuccess, h1]
  · simp [CallStats.recordResponse, CallStats.addSuccess, h2]
  · simp [CallStats.recordResponse, CallStats.addSuccess]; omega

theorem StatsInv.fold {a b : CallStats} (ha : StatsInv a) (hb : StatsInv b) :
    StatsInv (foldStats a b) := by
  obtain ⟨a1, a2, a3⟩ := ha
  obtain ⟨b1, b2, b3⟩ := hb
  refine ⟨?_, ?_, ?_⟩
  · simp [foldStats, a1, b1]
  · simp [foldStats, a2, b2]
  · simp [foldStats]; omega

/-- One iteration of the retry loop either returns directly (after `i + 1`
attempts in total) or continues into the remaining iterations with updated
statistics; either way the statistics invariant is preserved. -/
theorem callLoop_step (t : ℚ) (env : Nat → Attempt) (fuel i : Nat) (stats : CallStats) :
    (∃ r st, callLoop t env (fuel + 1) i stats = .ok (r, st, i + 1) ∧
       (StatsInv stats → StatsInv st)) ∨
    (∃ stats2, callLoop t env (fuel + 1) i stats = callLoop t env fuel (i + 1) stats2 ∧
       (StatsInv stats → StatsInv stats2)) := by
  cases henv : env i with
  | exception m =>
    by_cases hf : fuel = 0
    · subst hf
      exact Or.inl ⟨.transportError (exnText (.requestException m)), stats.addError,
        by simp [callLoop, henv, caughtByExcept], fun h => h.addError⟩
    · exact Or.inr ⟨stats.addError,
        by simp [callLoop, henv, caughtByExcept, hf], fun h => h.addError⟩
  | response status re et body =>
    rcases hcl : classify t status re with hs | hi | hsl | he | hf
    · cases body with
      | decoded v =>
        exact Or.inl ⟨.ok v, (stats.recordResponse et).addSuccess,
          by simp [callLoop, henv, hcl], fun h => h.record_addSuccess et⟩
      | decodeFailure msg =>
        by_cases hf : fuel = 0
        · subst hf
          exact Or.inl ⟨.transportError (exnText (.valueError msg)),
            ((stats.recordResponse et).addSuccess).addError,
            by simp [callLoop, henv, hcl, caughtByExcept],
            fun h => (h.record_addSuccess et).addError⟩
        · exact Or.inr ⟨((stats.recordResponse et).addSuccess).addError,
            by simp [callLoop, henv, hcl, caughtByExcept, hf],
            fun h => (h.record_addSuccess et).addError⟩
    · exact Or.inr ⟨(stats.recordResponse et).addError,
        by simp [callLoop, henv, hcl], fun h => h.record_addError et⟩
    · exact Or.inr ⟨(stats.recordResponse et).addError,
        by simp [callLoop, henv, hcl], fun h => h.record_addError et⟩
    · exact Or.inl ⟨.internalServerError, (stats.recordResponse et).addError,
        by simp [callLoop, henv, hcl], fun h => h.record_addError et⟩
    · cases body with
      | decoded v =>
        exact Or.inl ⟨.ok v, (stats.recordResponse et).addSuccess,
          by simp [callLoop, henv, hcl], fun h => h.record_addSuccess et⟩
      | decodeFailure msg =>
        by_cases hf : fuel = 0
        · subst hf
          exact Or.inl ⟨.transportError (exnText (.valueError msg)),
            ((stats.recordResponse et).addSuccess).addError,
            by simp [callLoop, henv, hcl, caughtByExcept],
            fun h => (h.record_addSuccess et).addError⟩
        · exact Or.inr ⟨((stats.recordResponse et).addSuccess).addError,
            by simp [callLoop, henv, hcl, caughtByExcept, hf],
            fun h => (h.record_addSuccess et).addError⟩

/-- Totality and attempt-count bounds of the retry loop: it always returns
`Except.ok`, performing between `i` (when no fuel remains) and `i + fuel`
attempts, and at least `i + 1` when it runs at least one iteration. -/
theorem callLoop_ok (t : ℚ) (env : Nat → Attempt) :
    ∀ fuel i stats, ∃ r st n,
      callLoop t env fuel i stats = .ok (r, st, n) ∧
      i ≤ n ∧ n ≤ i + fuel ∧ (fuel ≠ 0 → i + 1 ≤ n) := by
  intro fuel
  induction fuel with
  | zero =>
    intro i stats
    exact ⟨.maxRetriesExceeded, stats, i, by simp [callLoop], le_rfl, by omega, by omega⟩
  | succ fuel ih =>
    intro i stats
    rcases callLoop_step t env fuel i stats with ⟨r, st, heq, _⟩ | ⟨stats2, heq, _⟩
    · exact ⟨r, st, i + 1, heq, by omega, by omega, fun _ => by omega⟩
    · obtain ⟨r, st, n, heq2, hn1, hn2, _⟩ := ih (i + 1) stats2
      exact ⟨r, st, n, heq.trans heq2, by omega, by omega, fun _ => by omega⟩

/-- The retry loop preserves the statistics invariant. -/
theorem callLoop_inv (t : ℚ) (env : Nat → Attempt) :
    ∀ fuel i stats, StatsInv stats → ∀ r st n,
      callLoop t env fuel i stats = .ok (r, st, n) → StatsInv st := by
  intro fuel
  induction fuel with
  | zero =>
    intro i stats hs r st n h
    simp [callLoop] at h
    obtain ⟨-, h2, -⟩ := h
    exact h2 ▸ hs
  | succ fuel ih =>
    intro i stats hs r st n h
    rcases callLoop_step t env fuel i stats with ⟨r0, st0, heq, hp⟩ | ⟨stats2, heq, hp⟩
    · rw [heq] at h
      obtain ⟨-, h2, -⟩ : r0 = r ∧ st0 = st ∧ i + 1 = n := by
        simpa using h
      exact h2 ▸ hp hs
    · rw [heq] at h
      exact ih (i + 1) stats2 (hp hs) r st n h

/-- Totality and attempt bounds of `make_resilient_call`. -/
theorem make_resilient_call_ok (mr : Nat) (s : TimeoutStrategy) (env : Nat → Attempt) :
    ∃ r st n, make_resilient_call mr s env = .ok (r, st, n) ∧
      n ≤ mr ∧ (mr ≠ 0 → 1 ≤ n) := by
  obtain ⟨r, st, n, h, _, h2, h3⟩ :=
    callLoop_ok (timeoutOf s) env mr 0 (CallStats.init s)
  exact ⟨r, st, n, h, by omega, fun hm => h3 hm⟩

/-- The statistics returned by `make_resilient_call` satisfy the invariant. -/
theorem make_resilient_call_inv (mr : Nat) (s : TimeoutStrategy) (env : Nat → Attempt)
    (r : CallResult) (st : CallStats) (n : Nat)
    (h : make_resilient_call mr s env = .ok (r, st, n)) : StatsInv st :=
  callLoop_inv (timeoutOf s) env mr 0 (CallStats.init s) (statsInv_init s) r st n h

/-- The run-level fold of `run_test` preserves the statistics invariant. -/
theorem runLoop_inv (s : TimeoutStrategy) (env : Nat → Nat → Attempt) :
    ∀ k i acc, StatsInv acc → ∀ st, runLoop s env k i acc = .ok st → StatsInv st := by
  intro k
  induction k with
  | zero =>
    intro i acc ha st h
    simp [runLoop] at h
    exact h ▸ ha
  | succ k ih =>
    intro i acc ha st h
    simp only [runLoop] at h
    split at h
    · exact absurd h (by simp)
    · rename_i heq
      exact ih (i + 1) _ (ha.fold (make_resilient_call_inv 3 s _ _ _ _ heq)) st h

theorem serverErrorInTime_elim {t : ℚ} {a : Attempt} (h : ServerErrorInTime t a) :
    ∃ re et b, a = .response 500 re et b ∧ re ≤ t := by
  cases a with
  | response status re et b =>
    obtain ⟨h1, h2⟩ := h
    exact ⟨re, et, b, by rw [h1], h2⟩
  | exception m => exact absurd h (by simp [ServerErrorInTime])

theorem is503_elim {a : Attempt} (h : Is503 a) :
    ∃ re et b, a = .response 503 re et b := by
  cases a with
  | response status re et b => exact ⟨re, et, b, by rw [show status = 503 from h]⟩
  | exception m => exact absurd h (by simp [Is503])

/-- A loop iteration receiving a status-503 response (any elapsed time, any
body) books the attempt and an error and continues into the remaining
iterations. -/
theorem callLoop_503_step {env : Nat → Attempt} {i : Nat} {re et : ℚ} {b : JsonBody}
    (t : ℚ) (fuel : Nat) (stats : CallStats)
    (henv : env i = .response 503 re et b) :
    callLoop t env (fuel + 1) i stats =
      callLoop t env fuel (i + 1) ((stats.recordResponse et).addError) := by
  simp [callLoop, henv, classify]

/-- When every attempt gets a 503, the loop consumes all its fuel, books one
call and one error per iteration, and returns the max-retries-exceeded
result. -/
theorem callLoop_all503 (t : ℚ) (env : Nat → Attempt) (h : ∀ j, Is503 (env j)) :
    ∀ fuel i stats, ∃ st,
      callLoop t env fuel i stats = .ok (.maxRetriesExceeded, st, i + fuel) ∧
      st.total_calls = stats.total_calls + fuel ∧
      st.total_errors = stats.total_errors + fuel ∧
      st.total_success = stats.total_success := by
  intro fuel
  induction fuel with
  | zero => intro i stats; exact ⟨stats, by simp [callLoop], by omega, by omega, rfl⟩
  | succ fuel ih =>
    intro i stats
    obtain ⟨re, et, b, henv⟩ := is503_elim (h i)
    obtain ⟨st, heq, h1, h2, h3⟩ := ih (i + 1) ((stats.recordResponse et).addError)
    have hn : i + 1 + fuel = i + (fuel + 1) := by omega
    refine ⟨st, ?_, ?_, ?_, ?_⟩
    · rw [callLoop_503_step t fuel stats henv, heq, hn]
    · simp [CallStats.recordResponse, CallStats.addError] at h1; omega
    · simp [CallStats.recordResponse, CallStats.addError] at h2; omega
    · simpa [CallStats.recordResponse, CallStats.addError] using h3

/-- C1: for every `max_retries ≥ 1`, if every attempt yields a status-500
response received within the active timeout, `make_resilient_call` performs
exactly 1 HTTP attempt (no retry), increments `total_errors` to 1, leaves
`total_success` at 0, and immediately returns the structured
internal-server-error result. -/
theorem server_error_stops_retries (mr : Nat) (s : TimeoutStrategy)
    (env : Nat → Attempt) (hmr : 1 ≤ mr)
    (henv : ∀ j, ServerErrorInTime (timeoutOf s) (env j)) :
    ∃ st, make_resilient_call mr s env = .ok (.internalServerError, st, 1) ∧
      st.total_errors = 1 ∧ st.total_success = 0 := by
  obtain ⟨fuel, rfl⟩ : ∃ k, mr = k + 1 := ⟨mr - 1, by omega⟩
  obtain ⟨re, et, b, henv0, hre⟩ := serverErrorInTime_elim (henv 0)
  refine ⟨((CallStats.init s).recordResponse et).addError, ?_, ?_, ?_⟩
  · simp [make_resilient_call, callLoop, henv0, classify, not_lt.mpr hre]
  · simp [CallStats.init, CallStats.recordResponse, CallStats.addError]
  · simp [CallStats.init, CallStats.recordResponse, CallStats.addError]

def err500Env : Nat → Attempt := fun _ => .response 500 0 1 (.decoded "x")

theorem server_error_stops_retries_witness :
    1 ≤ 3 ∧
    ∃ st, make_resilient_call 3 .AGGRESSIVE err500Env =
        .ok (.internalServerError, st, 1) ∧
      st.total_errors = 1 ∧ st.total_success = 0 :=
  ⟨by omega, server_error_stops_retries 3 .AGGRESSIVE err500Env (by omega)
    (fun j => ⟨rfl, by norm_num [timeoutOf]⟩)⟩

/-- C3: if every attempt yields a status-503 response and `max_retries = 3`,
`make_resilient_call` returns the max-retries-exceeded failure result —
distinct from the server-error result — after 3 attempts, with
`total_calls = 3`, `total_errors = 3`, `total_success = 0`. -/
theorem retry_exhaustion_all_503 (s : TimeoutStrategy) (env : Nat → Attempt)
    (henv : ∀ j, Is503 (env j)) :
    ∃ st, make_resilient_call 3 s env = .ok (.maxRetriesExceeded, st, 3) ∧
      st.total_calls = 3 ∧ st.total_errors = 3 ∧ st.total_success = 0 ∧
      CallResult.maxRetriesExceeded ≠ CallResult.internalServerError := by
  obtain ⟨st, heq, h1, h2, h3⟩ :=
    callLoop_all503 (timeoutOf s) env henv 3 0 (CallStats.init s)
  refine ⟨st, by simpa [make_resilient_call] using heq, ?_, ?_, ?_, by simp⟩
  · simpa [CallStats.init] using h1
  · simpa [CallStats.init] using h2
  · simpa [CallStats.init] using h3

def err503Env : Nat → Attempt := fun _ => .response 503 1 1 (.decoded "x")

theorem retry_exhaustion_all_503_witness :
    ∃ st, make_resilient_call 3 .AGGRESSIVE err503Env =
        .ok (.maxRetriesExceeded, st, 3) ∧
      st.total_calls = 3 ∧ st.total_errors = 3 ∧ st.total_success = 0 ∧
      CallResult.maxRetriesExceeded ≠ CallResult.internalServerError :=
  retry_exhaustion_all_503 .AGGRESSIVE err503Env (fun _ => rfl)

/-- C4: for every `max_retries ≥ 1` and every sequence of attempt outcomes,
`make_resilient_call` performs at least 1 and at most `max_retries` HTTP
attempts. -/
theorem attempts_between_one_and_max (mr : Nat) (s : TimeoutStrategy)
    (env : Nat → Attempt) (hmr : 1 ≤ mr) (r : CallResult) (st : CallStats) (n : Nat)
    (h : make_resilient_call mr s env = .ok (r, st, n)) :
    1 ≤ n ∧ n ≤ mr := by
  obtain ⟨r2, st2, n2, h2, hb, h1⟩ := make_resilient_call_ok mr s env
  rw [h] at h2
  obtain ⟨-, -, rfl⟩ : r = r2 ∧ st = st2 ∧ n = n2 := by simpa using h2
  exact ⟨h1 (by omega), hb⟩

def okEnv : Nat → Attempt := fun _ => .response 200 0 1 (.decoded "body")

theorem attempts_between_one_and_max_witness :
    1 ≤ 3 ∧ 1 ≤ 1 ∧ 1 ≤ 3 :=
  ⟨by omega, attempts_between_one_and_max 3 .AGGRESSIVE okEnv (by omega)
    (.ok "body")
    { total_calls := 1, total_errors := 0, total_success := 1, total_time := 1,
      response_times := [1], timeout_strategy := .AGGRESSIVE } 1
    (by norm_num [make_resilient_call, callLoop, classify, timeoutOf, okEnv,
      CallStats.init, CallStats.recordResponse, CallStats.addSuccess])⟩

/-- C5: an attempt yielding a status-200 response with a decodable body is
classified `success`, increments `total_success` and returns the decoded body
immediately, even when the attempt's elapsed duration exceeds the active
timeout: the status-200 check takes priority over the elapsed-time (slow)
check. -/
theorem status_200_priority_over_slow (t : ℚ) (env : Nat → Attempt)
    (fuel i : Nat) (stats : CallStats) (re et : ℚ) (b : String)
    (henv : env i = .response 200 re et (.decoded b)) (hslow : re > t) :
    classify t 200 re = .success ∧
    callLoop t env (fuel + 1) i stats =
      .ok (.ok b, (stats.recordResponse et).addSuccess, i + 1) := by
  exact ⟨by simp [classify], by simp [callLoop, henv, classify]⟩

def slow200Env : Nat → Attempt := fun _ => .response 200 1 1 (.decoded "body")

theorem status_200_priority_over_slow_witness :
    (1 : ℚ) > 3 / 10 ∧
    (classify (3 / 10) 200 1 = .success ∧
     callLoop (3 / 10) slow200Env (2 + 1) 0 (CallStats.init .AGGRESSIVE) =
       .ok (.ok "body",
         ((CallStats.init .AGGRESSIVE).recordResponse 1).addSuccess, 0 + 1)) :=
  ⟨by norm_num, status_200_priority_over_slow (3 / 10) slow200Env 2 0
    (CallStats.init .AGGRESSIVE) 1 1 "body" rfl (by norm_num)⟩

/-- C6: for every input (`max_retries ≥ 1`, strategy) and every sequence of
attempt outcomes — including transport exceptions and body-decode failures on
every attempt — `make_resilient_call` returns a result/stats pair through
`Except.ok`: no exception propagates past its boundary. -/
theorem engine_always_returns (mr : Nat) (s : TimeoutStrategy)
    (env : Nat → Attempt) (hmr : 1 ≤ mr) :
    ∃ r st n, make_resilient_call mr s env = .ok (r, st, n) := by
  obtain ⟨r, st, n, h, -, -⟩ := make_resilient_call_ok mr s env
  exact ⟨r, st, n, h⟩

def allExnEnv : Nat → Attempt := fun _ => .exception "connection refused"

theorem engine_always_returns_witness :
    1 ≤ 3 ∧ ∃ r st n, make_resilient_call 3 .AGGRESSIVE allExnEnv = .ok (r, st, n) :=
  ⟨by omega, engine_always_returns 3 .AGGRESSIVE allExnEnv (by omega)⟩

/-- C10: an attempt yielding a response whose status is none of 200, 503, 500
and whose elapsed duration does not exceed the active timeout (e.g. a 404) is
treated as a success: `total_success` is incremented and the decoded body is
returned immediately. -/
theorem unknown_status_treated_as_success (t : ℚ) (env : Nat → Attempt)
    (fuel i : Nat) (stats : CallStats) (status : Nat) (re et : ℚ) (b : String)
    (henv : env i = .response status re et (.decoded b))
    (h200 : status ≠ 200) (h503 : status ≠ 503) (h500 : status ≠ 500)
    (hre : re ≤ t) :
    callLoop t env (fuel + 1) i stats =
      .ok (.ok b, (stats.recordResponse et).addSuccess, i + 1) := by
  simp [callLoop, henv, classify, h200, h503, h500, not_lt.mpr hre]

def notFoundEnv : Nat → Attempt := fun _ => .response 404 0 1 (.decoded "body")

theorem unknown_status_treated_as_success_witness :
    (404 ≠ 200 ∧ 404 ≠ 503 ∧ 404 ≠ 500 ∧ (0 : ℚ) ≤ 3 / 10) ∧
    callLoop (3 / 10) notFoundEnv (2 + 1) 0 (CallStats.init .AGGRESSIVE) =
      .ok (.ok "body",
        ((CallStats.init .AGGRESSIVE).recordResponse 1).addSuccess, 0 + 1) :=
  ⟨⟨by omega, by omega, by omega, by norm_num⟩,
    unknown_status_treated_as_success (3 / 10) notFoundEnv 2 0
      (CallStats.init .AGGRESSIVE) 404 0 1 "body" rfl
      (by omega) (by omega) (by omega) (by norm_num)⟩

def decodeFailEnv : Nat → Attempt := fun _ => .response 200 0 1 (.decodeFailure "bad json")

/-- C2 (code bug evaluated at the failing input): on a status-200 response
whose body fails to decode, the code increments `total_success` (line
`stats.total_success += 1`) before `response.json()` raises, and the caught
`ValueError` then also increments `total_errors`; with `max_retries = 1` the
attempt ends with the transport-failure result but `total_success = 1`,
contradicting the claim that `total_success` is not incremented. -/
theorem decode_failure_still_counts_success :
    make_resilient_call 1 .AGGRESSIVE decodeFailEnv =
      .ok (.transportError "bad json",
        { total_calls := 1, total_errors := 1, total_success := 1,
          total_time := 1, response_times := [1],
          timeout_strategy := .AGGRESSIVE }, 1) := by
  norm_num [make_resilient_call, callLoop, classify, timeoutOf, decodeFailEnv,
    CallStats.init, CallStats.recordResponse, CallStats.addSuccess,
    CallStats.addError, caughtByExcept, exnText]

def okRunEnv : Nat → Nat → Attempt := fun _ _ => .response 200 0 1 (.decoded "body")

/-- C7 (counterexample): with the non-positive parameters `num_calls = 0` and
`max_retries = 0` the system does not fail fast with a configuration error —
both functions return normally (`Except.ok`), performing no work; no
validation exists in the code. -/
theorem no_failfast_on_zero_params :
    run_test 0 .AGGRESSIVE okRunEnv = .ok (CallStats.init .AGGRESSIVE) ∧
    make_resilient_call 0 .AGGRESSIVE okEnv =
      .ok (.maxRetriesExceeded, CallStats.init .AGGRESSIVE, 0) :=
  ⟨rfl, rfl⟩

/-- C7 (amended): no run parameter is validated. With `num_calls = 0`,
`run_test` returns the empty `CallStats` normally; with `max_retries = 0`,
`make_resilient_call` performs 0 attempts and returns the
max-retries-exceeded result normally; the per-strategy timeout durations are
hardcoded positive constants (0.3 s and 35 s), so a non-positive timeout
cannot be configured. -/
theorem no_parameter_validation (s : TimeoutStrategy)
    (enva : Nat → Attempt) (envr : Nat → Nat → Attempt) :
    run_test 0 s envr = .ok (CallStats.init s) ∧
    make_resilient_call 0 s enva = .ok (.maxRetriesExceeded, CallStats.init s, 0) ∧
    0 < timeoutOf s := by
  refine ⟨rfl, rfl, ?_⟩
  cases s <;> norm_num [timeoutOf]

/-- C8: `run_test 0 strategy` performs no engine invocations (its result does
not depend on the environment) and returns the empty run-level `CallStats`:
all counters zero, `total_time = 0`, empty `response_times`; the derived
statistics — mean, sample standard deviation (for any square-root function)
and 95th percentile — all evaluate to zero. -/
theorem run_zero_calls_stats_zero (s : TimeoutStrategy) (env : Nat → Nat → Attempt) :
    run_test 0 s env = .ok (CallStats.init s) ∧
    (CallStats.init s).total_calls = 0 ∧
    (CallStats.init s).total_errors = 0 ∧
    (CallStats.init s).total_success = 0 ∧
    (CallStats.init s).total_time = 0 ∧
    (CallStats.init s).response_times = [] ∧
    (CallStats.init s).average_time = 0 ∧
    (∀ f : ℚ → ℚ, (CallStats.init s).stddev_time f = 0) ∧
    (CallStats.init s).percentile_95 = 0 := by
  refine ⟨rfl, rfl, rfl, rfl, rfl, rfl, ?_, ?_, ?_⟩
  · simp [CallStats.average_time, CallStats.init]
  · intro f
    simp [CallStats.stddev_time, CallStats.init]
  · simp [CallStats.percentile_95, CallStats.init]

/-- C9: the `CallStats` returned by `make_resilient_call` and by `run_test`
always satisfies: `response_times` has `total_calls` entries, `total_time` is
the sum of `response_times`, and `total_success + total_errors ≥ total_calls`
(attempts ending in a caught transport exception add to `total_errors` but
not to `total_calls` or `response_times`, and a 200-with-undecodable-body
attempt adds to both `total_success` and `total_errors`, so equality need not
hold). -/
theorem call_stats_invariant :
    (∀ (mr : Nat) (s : TimeoutStrategy) (env : Nat → Attempt)
       (r : CallResult) (st : CallStats) (n : Nat),
       make_resilient_call mr s env = .ok (r, st, n) → StatsInv st) ∧
    (∀ (nc : Nat) (s : TimeoutStrategy) (env : Nat → Nat → Attempt)
       (st : CallStats),
       run_test nc s env = .ok st → StatsInv st) :=
  ⟨fun mr s env r st n h => make_resilient_call_inv mr s env r st n h,
   fun nc s env st h => runLoop_inv s env nc 0 (CallStats.init s) (statsInv_init s) st h⟩

theorem call_stats_invariant_witness :
    StatsInv { total_calls := 1, total_errors := 0, total_success := 1,
               total_time := 0 + 1, response_times := [1],
               timeout_strategy := .AGGRESSIVE } :=
  call_stats_invariant.2 1 .AGGRESSIVE okRunEnv _
    (by norm_num [run_test, runLoop, make_resilient_call, callLoop, classify,
      timeoutOf, okRunEnv, CallStats.init, CallStats.recordResponse,
      CallStats.addSuccess, foldStats])

end RClient
